import Mathlib

/-!
Shallow embedding of the `ads-backend` Flask application (`src/app.py`,
schema in `src/setup_bd.py`) and proofs about its specified behaviour.

Modelling conventions:
* the process-wide `active_tokens` dict is an association list with
  dictionary semantics (insert overwrites, delete removes the key);
* SQL tables are Lean lists of row structures; `SERIAL` / `IDENTITY`
  ids are passed in as explicit fresh values where an insert happens;
* `hashlib.sha256(...).hexdigest()` is modelled as an abstract
  deterministic digest function (the claims depend only on determinism
  and equality of digests, never on the concrete hash);
* Python string operations (`startswith`, slicing) are modelled on the
  code-point list of the string;
* `REAL` columns are modelled as `ℚ`; timestamp columns are omitted
  (no claim mentions them).
-/

/-- Value stored in the `active_tokens` map for a token:
`active_tokens[token] = {'id': user['id'], 'role': user['role']}`. -/
structure TokenInfo where
  id : Nat
  role : String
deriving DecidableEq, Repr

/-- The process-wide `active_tokens` dictionary, as an association list. -/
abbrev SessionStore := List (String × TokenInfo)

/-- Dictionary read: `active_tokens.get(token)` / `token in active_tokens`. -/
def tokenLookup (store : SessionStore) (t : String) : Option TokenInfo :=
  (store.find? (fun e => e.1 == t)).map (·.2)

/-- Dictionary write: `active_tokens[token] = info` (overwrites any old entry). -/
def tokenInsert (store : SessionStore) (t : String) (info : TokenInfo) : SessionStore :=
  (t, info) :: store.filter (fun e => !(e.1 == t))

/-- Dictionary delete: `del active_tokens[token]`. -/
def tokenDelete (store : SessionStore) (t : String) : SessionStore :=
  store.filter (fun e => !(e.1 == t))

/-- Modelled from the spec: `hash_password` wraps `hashlib.sha256` (outside
the repository); per §4.2 it is a "deterministic one-way hash", so it is
modelled as an abstract injective tagging of the input. -/
def hash_password (password : String) : String :=
  "sha256:" ++ password

/-- Strip the `'Bearer '` prefix like `app.py` does
(`if token.startswith('Bearer '): token = token[7:]`), modelled over the
code-point list of the header value. -/
def stripBearer (token : String) : String :=
  if List.isPrefixOf "Bearer ".toList token.toList then
    String.mk (token.toList.drop 7)
  else token

/-- Error value produced by the auth decorator (HTTP status plus message). -/
structure AuthErr where
  status : Nat
  msg : String
deriving DecidableEq, Repr

/-- The `require_auth` decorator: read the `Authorization` header, 401 when
missing/empty, strip an optional `Bearer ` prefix, look the token up in
`active_tokens`, 401 when absent, otherwise expose `{id, role}`. -/
def require_auth (store : SessionStore) (authHeader : Option String) :
    Except AuthErr TokenInfo :=
  match authHeader with
  | none => .error ⟨401, "No authorization token provided"⟩
  | some tok =>
    if tok == "" then .error ⟨401, "No authorization token provided"⟩
    else
      match tokenLookup store (stripBearer tok) with
      | none => .error ⟨401, "Invalid or expired token"⟩
      | some info => .ok info

/-- Row of the `users` table (columns relevant to the claims). -/
structure User where
  id : Nat
  username : String
  email : String
  password_hash : String
  role : String
deriving DecidableEq, Repr

/-- Success payload of `POST /api/auth/login`. -/
structure LoginOk where
  token : String
  user_id : Nat
  username : String
  email : String
  role : String
deriving DecidableEq, Repr

/-- The `login` endpoint: 400 on a missing body/fields, otherwise select the
user by `username = %s AND password_hash = %s`; 401 when no row matches; on a
match store `token -> {id, role}` in `active_tokens` and return the token with
the public user fields.  The random `secrets.token_urlsafe(32)` value is
passed in as `freshTok`. -/
def login (users : List User) (store : SessionStore)
    (body : Option (String × String)) (freshTok : String) :
    (Nat × Option LoginOk) × SessionStore :=
  match body with
  | none => ((400, none), store)
  | some (username, password) =>
    let h := hash_password password
    match users.find? (fun u => u.username == username && u.password_hash == h) with
    | none => ((401, none), store)
    | some u =>
      ((200, some ⟨freshTok, u.id, u.username, u.email, u.role⟩),
        tokenInsert store freshTok ⟨u.id, u.role⟩)

/-- The `logout` endpoint including its `@require_auth` decorator: the
decorator returns 401 when the token is missing or not in `active_tokens`;
the handler body re-reads the header, deletes the entry when present, and
returns 200 in both branches. -/
def logout (store : SessionStore) (authHeader : Option String) :
    (Nat × String) × SessionStore :=
  match require_auth store authHeader with
  | .error e => ((e.status, e.msg), store)
  | .ok _ =>
    match authHeader with
    | none => ((200, "Logout successful"), store)
    | some tok =>
      let t := stripBearer tok
      if (tokenLookup store t).isSome then
        ((200, "Logout successful"), tokenDelete store t)
      else
        ((200, "Logout successful"), store)

/-- Character class of the regex `[a-z]`. -/
def lowercaseChar (c : Char) : Bool := 'a' ≤ c && c ≤ 'z'

/-- Character class of the regex `[A-Z]`. -/
def uppercaseChar (c : Char) : Bool := 'A' ≤ c && c ≤ 'Z'

/-- Character class of the special-character regex in `validate_password`
(braces written via their code points). -/
def specialChars : List Char :=
  ['!', '@', '#', '$', '%', '^', '&', '*', '(', ')', ',', '.', '?', '"',
   ':', Char.ofNat 123, Char.ofNat 125, '|', '<', '>']

/-- The `validate_password` helper: length, lowercase, uppercase and
special-character checks in that order, returning `(ok, reason)`. -/
def validate_password (password : String) : Bool × Option String :=
  if password.length < 8 then
    (false, some "Password must be at least 8 characters long")
  else if !(password.toList.any lowercaseChar) then
    (false, some "Password must contain at least one lowercase letter")
  else if !(password.toList.any uppercaseChar) then
    (false, some "Password must contain at least one uppercase letter")
  else if !(password.toList.any (fun c => specialChars.contains c)) then
    (false, some "Password must contain at least one special character")
  else
    (true, none)

/-- Row of the `ratings` table; `UNIQUE(user_id, movie_id)` in the schema.
Timestamp columns are omitted. -/
structure RatingRow where
  id : Nat
  user_id : Nat
  movie_id : Nat
  rating : ℚ
deriving DecidableEq, Repr

/-- The upsert statement executed by `submit_rating`:
`INSERT INTO ratings ... ON CONFLICT (user_id, movie_id) DO UPDATE SET
rating = %s ... RETURNING id`.  On conflict the existing row keeps its id and
gets the new rating; otherwise a fresh row with id `freshId` is appended.
Returns the new table and the id reported by `RETURNING id`. -/
def upsert_rating (tbl : List RatingRow) (uid mid : Nat) (r : ℚ) (freshId : Nat) :
    List RatingRow × Nat :=
  match tbl.find? (fun row => row.user_id == uid && row.movie_id == mid) with
  | some row =>
    (tbl.map (fun q =>
      if q.user_id == uid && q.movie_id == mid then
        { q with rating := r }
      else q), row.id)
  | none => (tbl ++ [{ id := freshId, user_id := uid, movie_id := mid, rating := r }], freshId)

/-- The `submit_rating` handler body (after `@require_auth` has resolved the
caller to `uid`): 400 when the body has no `rating` field, 400 when the value
is outside `0 <= rating <= 10` (table untouched), otherwise upsert and return
201 with `(rating_id, movie_id, rating)`. -/
def submit_rating (tbl : List RatingRow) (uid mid : Nat) (body : Option ℚ)
    (freshId : Nat) : (Nat × Option (Nat × Nat × ℚ)) × List RatingRow :=
  match body with
  | none => ((400, none), tbl)
  | some r =>
    if !(decide (0 ≤ r) && decide (r ≤ 10)) then ((400, none), tbl)
    else
      let res := upsert_rating tbl uid mid r freshId
      ((201, some (res.2, mid, r)), res.1)

/-- The `delete_rating` handler body:
`DELETE FROM ratings WHERE user_id = %s AND movie_id = %s`, 404 when
`cur.rowcount` is zero, 200 otherwise. -/
def delete_rating (tbl : List RatingRow) (uid mid : Nat) :
    (Nat × String) × List RatingRow :=
  let remaining := tbl.filter (fun row => !(row.user_id == uid && row.movie_id == mid))
  if remaining.length == tbl.length then
    ((404, "Rating not found or already deleted"), remaining)
  else
    ((200, "Rating deleted successfully"), remaining)

/-- Row of the `movies` table (columns relevant to the claims). -/
structure Movie where
  id : Nat
  title : String
  overview : String
  release_date : Option Int
  popularity : ℚ
  vote_average : ℚ
deriving DecidableEq, Repr

/-- Row of the `genres` table (`id SERIAL PRIMARY KEY, name TEXT UNIQUE`). -/
structure Genre where
  id : Nat
  name : String
deriving DecidableEq, Repr

/-- Row of the `movie_genres` link table (`PRIMARY KEY (movie_id, genre_id)`). -/
structure MovieGenre where
  movie_id : Nat
  genre_id : Nat
deriving DecidableEq, Repr

/-- Relational state of the database tables used by the catalog endpoints. -/
structure DB where
  movies : List Movie
  genres : List Genre
  movie_genres : List MovieGenre
  ratings : List RatingRow
deriving DecidableEq, Repr

/-- The `sort_map` dict of `get_movies_ai`. -/
def sort_map_ai : List (String × String) :=
  [("title_asc", "m.title ASC"), ("title_desc", "m.title DESC"),
   ("rating_desc", "m.vote_average DESC"), ("rating_asc", "m.vote_average ASC"),
   ("date_new", "m.release_date DESC"), ("date_old", "m.release_date ASC"),
   ("popularity", "m.popularity DESC")]

/-- The clause chosen by `get_movies_ai`:
`sort_map.get(sort, "m.popularity DESC")`. -/
def order_clause_ai (sort : String) : String :=
  ((sort_map_ai.find? (fun e => e.1 == sort)).map (·.2)).getD "m.popularity DESC"

/-- The `sorted_options` dict of `get_movies_traditional` (only four keys). -/
def sorted_options_traditional : List (String × String) :=
  [("title_asc", "title ASC"), ("title_desc", "title DESC"),
   ("date_new", "release_date DESC"), ("date_old", "release_date ASC")]

/-- The clause chosen by `get_movies_traditional`:
`sorted_options.get(sortedBy, "popularity DESC")`. -/
def order_clause_traditional (sortedBy : String) : String :=
  ((sorted_options_traditional.find? (fun e => e.1 == sortedBy)).map (·.2)).getD
    "popularity DESC"

/-- The `sort_map` dict of `search_movies`. -/
def sort_map_search : List (String × String) :=
  [("title_asc", "title ASC"), ("title_desc", "title DESC"),
   ("rating_desc", "vote_average DESC"), ("rating_asc", "vote_average ASC"),
   ("date_new", "release_date DESC"), ("date_old", "release_date ASC"),
   ("popularity", "popularity DESC")]

/-- The clause chosen by `search_movies`:
`sort_map.get(sort, "popularity DESC")`. -/
def order_clause_search (sort : String) : String :=
  ((sort_map_search.find? (fun e => e.1 == sort)).map (·.2)).getD "popularity DESC"

/-- The `sort_map` dict of `get_myMovies` (same entries as `search_movies`). -/
def sort_map_my : List (String × String) :=
  [("title_asc", "title ASC"), ("title_desc", "title DESC"),
   ("rating_desc", "vote_average DESC"), ("rating_asc", "vote_average ASC"),
   ("date_new", "release_date DESC"), ("date_old", "release_date ASC"),
   ("popularity", "popularity DESC")]

/-- The clause chosen by `get_myMovies`. -/
def order_clause_my (sort : String) : String :=
  ((sort_map_my.find? (fun e => e.1 == sort)).map (·.2)).getD "popularity DESC"

/-- Lexicographic comparison of strings on their code points (kernel-reducible
stand-in for SQL text collation; all claims are order-insensitive). -/
def charListLE : List Char → List Char → Bool
  | [], _ => true
  | _ :: _, [] => false
  | a :: as, b :: bs => if a == b then charListLE as bs else decide (a < b)

/-- Comparison of nullable dates (`NULL` sorts first; order-insensitive claims). -/
def optIntLE : Option Int → Option Int → Bool
  | none, _ => true
  | some _, none => false
  | some a, some b => decide (a ≤ b)

/-- Interpretation of a whitelisted `ORDER BY` clause as a total preorder on
movie rows ("is `a` sorted no later than `b`"). -/
def movieLE (clause : String) (a b : Movie) : Bool :=
  if clause == "m.title ASC" || clause == "title ASC" then
    charListLE a.title.toList b.title.toList
  else if clause == "m.title DESC" || clause == "title DESC" then
    charListLE b.title.toList a.title.toList
  else if clause == "m.vote_average ASC" || clause == "vote_average ASC" then
    decide (a.vote_average ≤ b.vote_average)
  else if clause == "m.vote_average DESC" || clause == "vote_average DESC" then
    decide (b.vote_average ≤ a.vote_average)
  else if clause == "m.release_date ASC" || clause == "release_date ASC" then
    optIntLE a.release_date b.release_date
  else if clause == "m.release_date DESC" || clause == "release_date DESC" then
    optIntLE b.release_date a.release_date
  else
    decide (b.popularity ≤ a.popularity)

/-- Sort a list of movie rows by a whitelisted `ORDER BY` clause. -/
def sortMovies (clause : String) (l : List Movie) : List Movie :=
  l.insertionSort (fun a b => movieLE clause a b = true)

/-- Python `str.lower()`, modelled over the code points of the string. -/
def pyLower (s : String) : String :=
  String.mk (s.toList.map Char.toLower)

/-- Truthiness test of the genre filter:
`if genre and genre.lower() != "all"`. -/
def genre_filter_active : Option String → Bool
  | none => false
  | some g => !(g == "") && !(pyLower g == "all")

/-- Test whether the link row `mg` belongs to movie `mid` and survives the
join `JOIN genres g ON mg.genre_id = g.id` plus the optional
`WHERE g.name = %s` genre filter. -/
def mg_row_matches (db : DB) (mid : Nat) (genre : Option String)
    (mg : MovieGenre) : Bool :=
  mg.movie_id == mid &&
    db.genres.any (fun g => g.id == mg.genre_id &&
      (!genre_filter_active genre || g.name == genre.getD ""))

/-- Test whether movie `m` appears in the join
`movies JOIN movie_genres JOIN genres` under the optional genre filter
(the grouped `target_ids` CTE keeps exactly these movies). -/
def movie_in_join (db : DB) (genre : Option String) (m : Movie) : Bool :=
  db.movie_genres.any (mg_row_matches db m.id genre)

/-- The `target_ids` CTE of `get_movies_ai`: ids of the movies surviving the
join and filter, grouped by id, ordered by the whitelisted clause, then
`LIMIT %s OFFSET %s`. -/
def target_ids (db : DB) (genre : Option String) (sort : String)
    (limit offset : Nat) : List Nat :=
  let grouped := db.movies.filter (movie_in_join db genre)
  let ordered := sortMovies (order_clause_ai sort) grouped
  ((ordered.map (·.id)).drop offset).take limit

/-- All genre names linked to movie `mid`
(the outer `ARRAY_AGG(g_all.name)` of `get_movies_ai`, no filter). -/
def movie_genre_names (db : DB) (mid : Nat) : List String :=
  (db.movie_genres.filter (fun mg => mg.movie_id == mid)).filterMap
    (fun mg => (db.genres.find? (fun g => g.id == mg.genre_id)).map (·.name))

/-- One result row of the catalog queries: the movie columns plus the
aggregated genre-name array. -/
structure MovieRowOut where
  movie : Movie
  genres : List String
deriving DecidableEq, Repr

/-- The outer query of `get_movies_ai`: join `target_ids` back to `movies`,
re-join `movie_genres`/`genres` without the filter, aggregate all genre names
per movie, and order by the same clause. -/
def movies_rows (db : DB) (genre : Option String) (sort : String)
    (limit offset : Nat) : List MovieRowOut :=
  (target_ids db genre sort limit offset).filterMap (fun i =>
    (db.movies.find? (fun m => m.id == i)).bind (fun m =>
      if movie_in_join db none m then
        some { movie := m, genres := movie_genre_names db m.id }
      else none))

/-- The count query of `get_movies_ai`: `COUNT(DISTINCT m.id)` over the
filtered join when the genre filter is active, else
`SELECT COUNT(*) FROM movies`. -/
def movies_total (db : DB) (genre : Option String) : Nat :=
  if genre_filter_active genre then
    (((db.movies.filter (movie_in_join db genre)).map (·.id)).dedup).length
  else
    db.movies.length

/-- JSON response of `GET /api/movies`. -/
structure MoviesResponse where
  movies : List MovieRowOut
  page : Nat
  limit : Nat
  total : Nat
  total_pages : Nat
deriving DecidableEq, Repr

/-- The `get_movies_ai` handler: `offset = (page - 1) * limit`, the CTE query,
the matching count query, and `total_pages = (total + limit - 1) // limit`. -/
def get_movies_ai (db : DB) (page limit : Nat) (genre : Option String)
    (sort : String) : MoviesResponse :=
  let offset := (page - 1) * limit
  let total := movies_total db genre
  { movies := movies_rows db genre sort limit offset
    page := page
    limit := limit
    total := total
    total_pages := (total + limit - 1) / limit }

/-- Genre names reaching the aggregate of `get_myMovies`: the (mg, g) join
pairs of movie `mid` that survive the `WHERE` clause — including, crucially,
the genre filter `AND g.name = %s`, which sits before the aggregation. -/
def myMovies_join_names (db : DB) (mid : Nat) (genre : Option String) :
    List String :=
  (db.movie_genres.filter (fun mg => mg.movie_id == mid)).flatMap (fun mg =>
    (db.genres.filter (fun g => g.id == mg.genre_id &&
      (!genre_filter_active genre || g.name == genre.getD ""))).map (·.name))

/-- The query of `get_myMovies` for user `uid`: movies joined with the
caller's ratings and with `movie_genres`/`genres`, the genre filter applied
in `WHERE`, grouped per movie with `ARRAY_AGG(DISTINCT g.name)`, ordered,
then `LIMIT %s OFFSET %s`. -/
def get_myMovies_rows (db : DB) (uid : Nat) (genre : Option String)
    (sort : String) (limit offset : Nat) : List MovieRowOut :=
  let joined := db.movies.filter (fun m =>
    db.ratings.any (fun r => r.user_id == uid && r.movie_id == m.id) &&
    !(myMovies_join_names db m.id genre).isEmpty)
  let ordered := sortMovies (order_clause_my sort) joined
  ((ordered.map (fun m =>
    MovieRowOut.mk m (myMovies_join_names db m.id genre).dedup)).drop offset).take limit

/-- The recommendation query of `get_home_recommendations`: movies sharing a
genre with any movie the user rated, excluding movies the user already
rated, `ORDER BY m.popularity DESC LIMIT 20` (`SELECT DISTINCT`). -/
def recommended_movies (db : DB) (uid : Nat) : List Movie :=
  let ratedGenreLinks := db.movie_genres.filter (fun mg2 =>
    db.ratings.any (fun r => r.user_id == uid && r.movie_id == mg2.movie_id))
  let recs := db.movies.filter (fun m =>
    (db.movie_genres.any (fun mg => mg.movie_id == m.id &&
      ratedGenreLinks.any (fun mg2 => mg2.genre_id == mg.genre_id))) &&
    !(db.ratings.any (fun r => r.user_id == uid && r.movie_id == m.id)))
  (sortMovies "m.popularity DESC" recs).take 20

/-- JSON response of `GET /api/home/recommendations` (fields that can occur,
each optional as in the handler). -/
structure RecResponse where
  status : Nat
  user_id : Option Nat
  recommended : Option (List Movie)
  message : Option String
  error : Option String
deriving DecidableEq, Repr

/-- The `get_home_recommendations` endpoint including its `@require_auth`
decorator: 401 from the decorator when the token is missing or invalid;
otherwise run the recommendation query (`if user_id:` is Python truthiness,
modelled as `id ≠ 0`), attach `recommended` when non-empty and a `message`
otherwise. -/
def get_home_recommendations (db : DB) (store : SessionStore)
    (authHeader : Option String) : RecResponse :=
  match require_auth store authHeader with
  | .error e =>
    { status := e.status, user_id := none, recommended := none,
      message := none, error := some e.msg }
  | .ok info =>
    if info.id ≠ 0 then
      let recs := recommended_movies db info.id
      if !recs.isEmpty then
        { status := 200, user_id := some info.id, recommended := some recs,
          message := none, error := none }
      else
        { status := 200, user_id := some info.id, recommended := none,
          message := some "No personalized recommendations found based on your high ratings (>= 7).",
          error := none }
    else
      { status := 200, user_id := none, recommended := none,
        message := some "User not authenticated. No personalized recommendations available.",
        error := none }

/-- Helper: stripping leaves a header without the `Bearer ` prefix unchanged. -/
theorem stripBearer_of_not (t : String)
    (h : List.isPrefixOf "Bearer ".toList t.toList = false) : stripBearer t = t := by
  unfold stripBearer
  rw [h]
  simp

/-- Helper: looking up a freshly inserted token finds its info. -/
theorem tokenLookup_insert_self (store : SessionStore) (t : String) (info : TokenInfo) :
    tokenLookup (tokenInsert store t info) t = some info := by
  simp [tokenLookup, tokenInsert]

/-- Helper: looking up a deleted token fails. -/
theorem tokenLookup_delete_self (store : SessionStore) (t : String) :
    tokenLookup (tokenDelete store t) t = none := by
  have hfind : (store.filter (fun e => !(e.1 == t))).find? (fun e => e.1 == t) = none := by
    rw [List.find?_eq_none]
    intro x hx
    have hx2 := (List.mem_filter.mp hx).2
    simpa using hx2
  simp [tokenLookup, tokenDelete, hfind]

/-- C1: for a stored user, login with the matching username and password
succeeds with a token that authenticates to the same user id and role, and
after logout the same token is rejected with a 401 auth error. -/
theorem login_authenticate_logout_roundtrip
    (users : List User) (store : SessionStore) (username p : String) (u : User)
    (t : String)
    (hmem : u ∈ users) (hname : u.username = username)
    (hhash : u.password_hash = hash_password p)
    (hnodup : (users.map (·.username)).Nodup)
    (hne : t ≠ "")
    (hnb : List.isPrefixOf "Bearer ".toList t.toList = false) :
    (login users store (some (username, p)) t).1.1 = 200 ∧
    ((login users store (some (username, p)) t).1.2.map (·.token)) = some t ∧
    require_auth (login users store (some (username, p)) t).2 (some t) =
      .ok ⟨u.id, u.role⟩ ∧
    (logout (login users store (some (username, p)) t).2 (some t)).1.1 = 200 ∧
    require_auth
      (logout (login users store (some (username, p)) t).2 (some t)).2 (some t) =
      .error ⟨401, "Invalid or expired token"⟩ := by
  have hfind : users.find?
      (fun v => v.username == username && v.password_hash == hash_password p) = some u := by
    have hsome : (users.find?
        (fun v => v.username == username && v.password_hash == hash_password p)).isSome := by
      rw [List.find?_isSome]
      exact ⟨u, hmem, by simp [hname, hhash]⟩
    obtain ⟨w, hw⟩ := Option.isSome_iff_exists.mp hsome
    have hwmem := List.mem_of_find?_eq_some hw
    have hwpred := List.find?_some hw
    simp only [Bool.and_eq_true, beq_iff_eq] at hwpred
    have hwu : w = u :=
      List.inj_on_of_nodup_map hnodup hwmem hmem (by rw [hwpred.1, hname])
    rw [hw, hwu]
  have hlogin : login users store (some (username, p)) t =
      ((200, some ⟨t, u.id, u.username, u.email, u.role⟩),
        tokenInsert store t ⟨u.id, u.role⟩) := by
    simp [login, hfind]
  have hauth : require_auth (tokenInsert store t ⟨u.id, u.role⟩) (some t) =
      .ok ⟨u.id, u.role⟩ := by
    simp [require_auth, hne, stripBearer_of_not t hnb, tokenLookup_insert_self]
  have hlogout : logout (tokenInsert store t ⟨u.id, u.role⟩) (some t) =
      ((200, "Logout successful"), tokenDelete (tokenInsert store t ⟨u.id, u.role⟩) t) := by
    simp [logout, hauth, stripBearer_of_not t hnb, tokenLookup_insert_self]
  have hauth2 : require_auth (tokenDelete (tokenInsert store t ⟨u.id, u.role⟩) t)
      (some t) = .error ⟨401, "Invalid or expired token"⟩ := by
    simp [require_auth, hne, stripBearer_of_not t hnb, tokenLookup_delete_self]
  refine ⟨by rw [hlogin], by rw [hlogin]; rfl, ?_, ?_, ?_⟩
  · rw [hlogin]; exact hauth
  · rw [hlogin, hlogout]
  · rw [hlogin, hlogout]; exact hauth2

theorem login_authenticate_logout_roundtrip_witness :
    require_auth (login [⟨1, "alice", "a@b.co", hash_password "S3cret!x", "user"⟩] []
      (some ("alice", "S3cret!x")) "tok1").2 (some "tok1") = .ok ⟨1, "user"⟩ := by
  have h := login_authenticate_logout_roundtrip
    [⟨1, "alice", "a@b.co", hash_password "S3cret!x", "user"⟩] [] "alice" "S3cret!x"
    ⟨1, "alice", "a@b.co", hash_password "S3cret!x", "user"⟩ "tok1"
    (by decide) rfl rfl (by decide) (by decide) (by decide)
  exact h.2.2.1

/-- Counterexample to C2 as stated: logging out twice with the same token
returns 200 the first time but 401 (not 200) the second, because the
`@require_auth` decorator rejects the now-absent token. -/
theorem logout_absent_token_counterexample :
    (logout [(("tok1" : String), ⟨1, "user"⟩)] (some "tok1")).1.1 = 200 ∧
    (logout (logout [(("tok1" : String), ⟨1, "user"⟩)] (some "tok1")).2
      (some "tok1")).1.1 = 401 := by
  decide

/-- C2 (amended): logout with a token present in the store returns 200 and
removes the entry, but a logout with an absent token — in particular the
second of two logouts with the same token — is rejected with 401 by the
`@require_auth` decorator before the always-200 handler body runs. -/
theorem logout_valid_token_only (store : SessionStore) (t : String) (info : TokenInfo)
    (hne : t ≠ "") (hnb : List.isPrefixOf "Bearer ".toList t.toList = false)
    (hlook : tokenLookup store t = some info) :
    (logout store (some t)).1.1 = 200 ∧
    tokenLookup (logout store (some t)).2 t = none ∧
    (logout (logout store (some t)).2 (some t)).1.1 = 401 := by
  have hauth : require_auth store (some t) = .ok info := by
    simp [require_auth, hne, stripBearer_of_not t hnb, hlook]
  have h1 : logout store (some t) = ((200, "Logout successful"), tokenDelete store t) := by
    simp [logout, hauth, stripBearer_of_not t hnb, hlook]
  have h2 : require_auth (tokenDelete store t) (some t) =
      .error ⟨401, "Invalid or expired token"⟩ := by
    simp [require_auth, hne, stripBearer_of_not t hnb, tokenLookup_delete_self]
  refine ⟨by rw [h1], ?_, ?_⟩
  · rw [h1]; exact tokenLookup_delete_self store t
  · rw [h1]; simp [logout, h2]

theorem logout_valid_token_only_witness :
    (logout [(("tok9" : String), ⟨7, "admin"⟩)] (some "tok9")).1.1 = 200 := by
  have h := logout_valid_token_only [(("tok9" : String), ⟨7, "admin"⟩)] "tok9"
    ⟨7, "admin"⟩ (by decide) (by decide) (by decide)
  exact h.1

/-- C6: `validate_password` accepts exactly the strings of length at least 8
containing a lowercase letter, an uppercase letter and a special character,
and on failure reports the first failing check in the fixed order
length, lowercase, uppercase, special. -/
theorem validate_password_spec (s : String) :
    ((validate_password s).1 = true ↔
      (8 ≤ s.length ∧ (∃ c ∈ s.toList, lowercaseChar c) ∧
        (∃ c ∈ s.toList, uppercaseChar c) ∧ (∃ c ∈ s.toList, c ∈ specialChars))) ∧
    (s.length < 8 →
      (validate_password s).2 = some "Password must be at least 8 characters long") ∧
    (8 ≤ s.length → (∀ c ∈ s.toList, ¬ lowercaseChar c) →
      (validate_password s).2 = some "Password must contain at least one lowercase letter") ∧
    (8 ≤ s.length → (∃ c ∈ s.toList, lowercaseChar c) →
      (∀ c ∈ s.toList, ¬ uppercaseChar c) →
      (validate_password s).2 = some "Password must contain at least one uppercase letter") ∧
    (8 ≤ s.length → (∃ c ∈ s.toList, lowercaseChar c) →
      (∃ c ∈ s.toList, uppercaseChar c) → (∀ c ∈ s.toList, c ∉ specialChars) →
      (validate_password s).2 = some "Password must contain at least one special character") ∧
    ((validate_password s).1 = true → (validate_password s).2 = none) := by
  unfold validate_password
  split_ifs with h1 h2 h3 h4 <;>
    simp_all [List.any_eq_true, List.elem_eq_mem, Nat.not_lt, Nat.lt_iff_add_one_le]

/-- Witness for `validate_password_spec` at the spec example `"alllower1!"`. -/
theorem validate_password_spec_witness :
    (validate_password "alllower1!").2 =
      some "Password must contain at least one uppercase letter" := by
  have h := validate_password_spec "alllower1!"
  exact h.2.2.2.1 (by decide) (by decide) (by decide)

/-- Invariant of the `ratings` table enforced by `UNIQUE(user_id, movie_id)`:
no two rows share the same `(user_id, movie_id)` pair. -/
def RatingsUnique (tbl : List RatingRow) : Prop :=
  List.Pairwise (fun a b => ¬(a.user_id = b.user_id ∧ a.movie_id = b.movie_id)) tbl

/-- Helper: in a table satisfying the uniqueness invariant, at most one row
matches a given `(user_id, movie_id)` pair. -/
theorem ratings_filter_length_le_one (tbl : List RatingRow) (uid mid : Nat)
    (hU : RatingsUnique tbl) :
    (tbl.filter (fun row => row.user_id == uid && row.movie_id == mid)).length ≤ 1 := by
  induction tbl with
  | nil => simp
  | cons a l ih =>
    rw [RatingsUnique, List.pairwise_cons] at hU
    by_cases ha : (a.user_id == uid && a.movie_id == mid) = true
    · have hnil : l.filter (fun row => row.user_id == uid && row.movie_id == mid) = [] := by
        rw [List.filter_eq_nil_iff]
        intro b hb hpb
        simp only [Bool.and_eq_true, beq_iff_eq] at ha hpb
        exact hU.1 b hb ⟨ha.1.trans hpb.1.symm, ha.2.trans hpb.2.symm⟩
      simp [List.filter_cons, ha, hnil]
    · simpa [List.filter_cons, ha] using ih hU.2

/-- Helper: the row update function of the upsert keeps the key columns. -/
theorem upsert_update_keeps_keys (uid mid : Nat) (r : ℚ) (q : RatingRow) :
    ((if q.user_id == uid && q.movie_id == mid then { q with rating := r } else q)).user_id
        = q.user_id ∧
    ((if q.user_id == uid && q.movie_id == mid then { q with rating := r } else q)).movie_id
        = q.movie_id := by
  split <;> exact ⟨rfl, rfl⟩

/-- Helper: the upsert preserves the uniqueness invariant. -/
theorem upsert_rating_unique (tbl : List RatingRow) (uid mid : Nat) (r : ℚ)
    (fid : Nat) (hU : RatingsUnique tbl) :
    RatingsUnique (upsert_rating tbl uid mid r fid).1 := by
  unfold upsert_rating
  cases hf : tbl.find? (fun row => row.user_id == uid && row.movie_id == mid) with
  | none =>
    simp only [RatingsUnique, List.pairwise_append]
    refine ⟨hU, by simp, ?_⟩
    intro a ha b hb
    have hnp := List.find?_eq_none.mp hf a ha
    simp only [Bool.and_eq_true, beq_iff_eq, not_and] at hnp
    simp only [List.mem_singleton] at hb
    subst hb
    rintro ⟨h1, h2⟩
    exact hnp (by simpa using h1) (by simpa using h2)
  | some row =>
    refine List.Pairwise.map _ ?_ hU
    intro a b hab hcon
    have hka := upsert_update_keeps_keys uid mid r a
    have hkb := upsert_update_keeps_keys uid mid r b
    exact hab ⟨hka.1 ▸ hkb.1 ▸ hcon.1, hka.2 ▸ hkb.2 ▸ hcon.2⟩

/-- Helper: after an upsert the rows matching the pair hold exactly the new
value. -/
theorem upsert_rating_filter (tbl : List RatingRow) (uid mid : Nat) (r : ℚ)
    (fid : Nat) (hU : RatingsUnique tbl) :
    (((upsert_rating tbl uid mid r fid).1.filter
      (fun row => row.user_id == uid && row.movie_id == mid)).map (·.rating)) = [r] := by
  unfold upsert_rating
  cases hf : tbl.find? (fun row => row.user_id == uid && row.movie_id == mid) with
  | none =>
    have hnil : tbl.filter (fun row => row.user_id == uid && row.movie_id == mid) = [] := by
      rw [List.filter_eq_nil_iff]
      intro b hb hpb
      exact absurd hpb (by simpa using List.find?_eq_none.mp hf b hb)
    simp [List.filter_append, hnil]
  | some row =>
    simp only
    rw [List.filter_map]
    have hpred : ∀ q : RatingRow,
        (((if q.user_id == uid && q.movie_id == mid then { q with rating := r } else q)).user_id
            == uid &&
          ((if q.user_id == uid && q.movie_id == mid then { q with rating := r } else q)).movie_id
            == mid) = (q.user_id == uid && q.movie_id == mid) := by
      intro q
      have hk := upsert_update_keeps_keys uid mid r q
      rw [hk.1, hk.2]
    have hfe : List.filter ((fun row => row.user_id == uid && row.movie_id == mid) ∘
        (fun q : RatingRow => if q.user_id == uid && q.movie_id == mid then
          { q with rating := r } else q)) tbl =
        tbl.filter (fun q => q.user_id == uid && q.movie_id == mid) := by
      apply List.filter_congr
      intro q _
      simpa [Function.comp] using hpred q
    rw [hfe]
    have hone : ∃ x, tbl.filter (fun q => q.user_id == uid && q.movie_id == mid) = [x] := by
      have hlen := ratings_filter_length_le_one tbl uid mid hU
      have hrowm := List.mem_of_find?_eq_some hf
      have hrowp := List.find?_some hf
      have hmemf : row ∈ tbl.filter (fun q => q.user_id == uid && q.movie_id == mid) :=
        List.mem_filter.mpr ⟨hrowm, hrowp⟩
      match hcase : tbl.filter (fun q => q.user_id == uid && q.movie_id == mid) with
      | [] => rw [hcase] at hmemf; cases hmemf
      | [x] => exact ⟨x, hcase⟩
      | x :: y :: l => rw [hcase] at hlen; simp at hlen
    obtain ⟨x, hx⟩ := hone
    have hpx : (x.user_id == uid && x.movie_id == mid) = true := by
      have : x ∈ tbl.filter (fun q => q.user_id == uid && q.movie_id == mid) := by
        rw [hx]; exact List.mem_singleton_self x
      exact (List.mem_filter.mp this).2
    rw [hx]
    simp only [Bool.and_eq_true, beq_iff_eq] at hpx
    simp [hpx.1, hpx.2]

/-- C3: the `(user_id, movie_id)` uniqueness invariant is preserved by the
upsert and by rating deletion, and submitting a rating twice for the same
user and movie leaves exactly one matching row holding the latest value. -/
theorem ratings_upsert_unique (tbl : List RatingRow) (uid mid : Nat)
    (r1 r2 : ℚ) (id1 id2 : Nat) (hU : RatingsUnique tbl) :
    RatingsUnique (upsert_rating tbl uid mid r1 id1).1 ∧
    RatingsUnique (delete_rating tbl uid mid).2 ∧
    (((upsert_rating (upsert_rating tbl uid mid r1 id1).1 uid mid r2 id2).1.filter
        (fun row => row.user_id == uid && row.movie_id == mid)).map (·.rating)) = [r2] := by
  refine ⟨upsert_rating_unique tbl uid mid r1 id1 hU, ?_, ?_⟩
  · have hdel : (delete_rating tbl uid mid).2 =
        tbl.filter (fun row => !(row.user_id == uid && row.movie_id == mid)) := by
      unfold delete_rating
      dsimp only
      split <;> rfl
    rw [RatingsUnique, hdel]
    exact List.Pairwise.sublist (List.filter_sublist tbl) hU
  · exact upsert_rating_filter _ uid mid r2 id2 (upsert_rating_unique tbl uid mid r1 id1 hU)

/-- Witness for `ratings_upsert_unique` on a concrete one-row table. -/
theorem ratings_upsert_unique_witness :
    (((upsert_rating (upsert_rating [] 1 2 7 10).1 1 2 7 11).1.filter
        (fun row => row.user_id == 1 && row.movie_id == 2)).map (·.rating)) = [7] := by
  exact (ratings_upsert_unique [] 1 2 7 7 10 11 List.Pairwise.nil).2.2

/-- Helper: a `dict.get(key, default)` lookup yields the default or a stored
value. -/
theorem clause_mem_of_getD (l : List (String × String)) (s dflt : String) :
    ((l.find? (fun e => e.1 == s)).map (·.2)).getD dflt ∈ dflt :: l.map (·.2) := by
  cases hf : l.find? (fun e => e.1 == s) with
  | none => simp
  | some p =>
    have hp := List.mem_of_find?_eq_some hf
    exact List.mem_cons_of_mem _ (List.mem_map_of_mem _ hp)

/-- Helper: a `dict.get(key, default)` lookup with an absent key yields the
default. -/
theorem clause_default_of_not_mem (l : List (String × String)) (s dflt : String)
    (h : s ∉ l.map (·.1)) :
    ((l.find? (fun e => e.1 == s)).map (·.2)).getD dflt = dflt := by
  have hf : l.find? (fun e => e.1 == s) = none := by
    rw [List.find?_eq_none]
    intro x hx hbeq
    apply h
    have hxs : x.1 = s := by simpa using hbeq
    rw [← hxs]
    exact List.mem_map_of_mem _ hx
  rw [hf]
  rfl

/-- C4: on each movie listing endpoint the `ORDER BY` clause always comes
from that endpoint's fixed whitelist of column-direction pairs, every
whitelisted key maps to its fixed pair, and any unrecognized key (the absent
value included) falls back to popularity descending. -/
theorem sort_whitelist_spec (s : String) :
    order_clause_ai s ∈ sort_map_ai.map (·.2) ∧
    order_clause_search s ∈ sort_map_search.map (·.2) ∧
    order_clause_traditional s ∈ "popularity DESC" :: sorted_options_traditional.map (·.2) ∧
    (s ∉ sort_map_ai.map (·.1) → order_clause_ai s = "m.popularity DESC") ∧
    (s ∉ sort_map_search.map (·.1) → order_clause_search s = "popularity DESC") ∧
    (s ∉ sorted_options_traditional.map (·.1) →
      order_clause_traditional s = "popularity DESC") ∧
    order_clause_ai "title_asc" = "m.title ASC" ∧
    order_clause_ai "title_desc" = "m.title DESC" ∧
    order_clause_ai "rating_desc" = "m.vote_average DESC" ∧
    order_clause_ai "rating_asc" = "m.vote_average ASC" ∧
    order_clause_ai "date_new" = "m.release_date DESC" ∧
    order_clause_ai "date_old" = "m.release_date ASC" ∧
    order_clause_ai "popularity" = "m.popularity DESC" ∧
    order_clause_search "title_asc" = "title ASC" ∧
    order_clause_search "title_desc" = "title DESC" ∧
    order_clause_search "rating_desc" = "vote_average DESC" ∧
    order_clause_search "rating_asc" = "vote_average ASC" ∧
    order_clause_search "date_new" = "release_date DESC" ∧
    order_clause_search "date_old" = "release_date ASC" ∧
    order_clause_search "popularity" = "popularity DESC" := by
  refine ⟨?_, ?_, ?_, ?_, ?_, ?_, rfl, rfl, rfl, rfl, rfl, rfl, rfl,
    rfl, rfl, rfl, rfl, rfl, rfl, rfl⟩
  · rcases List.mem_cons.mp (clause_mem_of_getD sort_map_ai s "m.popularity DESC")
      with h | h
    · rw [order_clause_ai, h]; decide
    · exact h
  · rcases List.mem_cons.mp (clause_mem_of_getD sort_map_search s "popularity DESC")
      with h | h
    · rw [order_clause_search, h]; decide
    · exact h
  · exact clause_mem_of_getD sorted_options_traditional s "popularity DESC"
  · exact fun h => clause_default_of_not_mem sort_map_ai s "m.popularity DESC" h
  · exact fun h => clause_default_of_not_mem sort_map_search s "popularity DESC" h
  · exact fun h => clause_default_of_not_mem sorted_options_traditional s "popularity DESC" h

/-- Witness for `sort_whitelist_spec` at an unrecognized sort value. -/
theorem sort_whitelist_spec_witness :
    order_clause_ai "bogus" = "m.popularity DESC" := by
  exact (sort_whitelist_spec "bogus").2.2.2.1 (by decide)

/-- Helper: Python `(total + limit - 1) // limit` is the ceiling of
`total / limit` for a positive limit. -/
theorem nat_ceil_div (T L : Nat) (hL : 0 < L) :
    (T + L - 1) / L = Nat.ceil ((T : ℚ) / (L : ℚ)) := by
  have hLQ : (0 : ℚ) < (L : ℚ) := by exact_mod_cast hL
  apply le_antisymm
  · have h1 : (T : ℚ) / (L : ℚ) ≤ (Nat.ceil ((T : ℚ) / (L : ℚ)) : ℚ) := Nat.le_ceil _
    have h2 : (T : ℚ) ≤ (Nat.ceil ((T : ℚ) / (L : ℚ)) : ℚ) * (L : ℚ) := by
      rwa [div_le_iff₀ hLQ] at h1
    have h3 : T ≤ Nat.ceil ((T : ℚ) / (L : ℚ)) * L := by exact_mod_cast h2
    have hmul : (Nat.ceil ((T : ℚ) / (L : ℚ)) + 1) * L =
        Nat.ceil ((T : ℚ) / (L : ℚ)) * L + L := by ring
    have h4 : T + L - 1 < (Nat.ceil ((T : ℚ) / (L : ℚ)) + 1) * L := by omega
    have hd := (Nat.div_lt_iff_lt_mul hL).mpr h4
    omega
  · rw [Nat.ceil_le, div_le_iff₀ hLQ]
    have h1 := Nat.div_add_mod (T + L - 1) L
    have h2 := Nat.mod_lt (T + L - 1) hL
    have h3 : T ≤ L * ((T + L - 1) / L) := by omega
    calc (T : ℚ) ≤ ((L * ((T + L - 1) / L) : ℕ) : ℚ) := by exact_mod_cast h3
      _ = (((T + L - 1) / L : ℕ) : ℚ) * (L : ℚ) := by push_cast; ring

/-- C5: `GET /api/movies` returns at most `limit` rows, reports the count of
the matching count query as `total`, and `total_pages` is the ceiling of
`total / limit`. -/
theorem movies_pagination_bounds (db : DB) (page limit : Nat)
    (genre : Option String) (sort : String) (hp : 1 ≤ page) (hl : 1 ≤ limit) :
    (get_movies_ai db page limit genre sort).movies.length ≤ limit ∧
    (get_movies_ai db page limit genre sort).total = movies_total db genre ∧
    (get_movies_ai db page limit genre sort).total_pages =
      Nat.ceil ((movies_total db genre : ℚ) / (limit : ℚ)) := by
  refine ⟨?_, rfl, ?_⟩
  · have h1 : (get_movies_ai db page limit genre sort).movies.length ≤
        (target_ids db genre sort limit ((page - 1) * limit)).length :=
      List.length_filterMap_le _ _
    have h2 : (target_ids db genre sort limit ((page - 1) * limit)).length ≤ limit := by
      unfold target_ids
      simp [List.length_take]
    exact le_trans h1 h2
  · have h3 : (get_movies_ai db page limit genre sort).total_pages =
        (movies_total db genre + limit - 1) / limit := rfl
    rw [h3, nat_ceil_div _ _ hl]

/-- Witness for `movies_pagination_bounds` on the empty database. -/
theorem movies_pagination_bounds_witness :
    (get_movies_ai ⟨[], [], [], []⟩ 1 20 none "popularity").movies.length ≤ 20 := by
  exact (movies_pagination_bounds ⟨[], [], [], []⟩ 1 20 none "popularity"
    (by decide) (by decide)).1

/-- C7: the rating endpoint returns 400 and leaves the table unchanged when
the `rating` field is missing or out of the inclusive range 0..10, and
otherwise returns 201 with the id reported by the upsert. -/
theorem submit_rating_validation (tbl : List RatingRow) (uid mid freshId : Nat) :
    submit_rating tbl uid mid none freshId = ((400, none), tbl) ∧
    (∀ r : ℚ, (r < 0 ∨ 10 < r) →
      submit_rating tbl uid mid (some r) freshId = ((400, none), tbl)) ∧
    (∀ r : ℚ, 0 ≤ r → r ≤ 10 →
      (submit_rating tbl uid mid (some r) freshId).1.1 = 201 ∧
      (submit_rating tbl uid mid (some r) freshId).1.2 =
        some ((upsert_rating tbl uid mid r freshId).2, mid, r) ∧
      (submit_rating tbl uid mid (some r) freshId).2 =
        (upsert_rating tbl uid mid r freshId).1) := by
  refine ⟨rfl, ?_, ?_⟩
  · intro r hr
    have hcond : (decide (0 ≤ r) && decide (r ≤ 10)) = false := by
      rcases hr with h | h
      · simp [not_le.mpr h]
      · simp [not_le.mpr h]
    simp [submit_rating, hcond]
  · intro r h0 h10
    have hcond : (decide (0 ≤ r) && decide (r ≤ 10)) = true := by simp [h0, h10]
    simp [submit_rating, hcond]

/-- Witness for `submit_rating_validation`: rating 11 is rejected with 400,
rating 7 is accepted with 201. -/
theorem submit_rating_validation_witness :
    (submit_rating [] 1 2 (some 11) 5).1.1 = 400 ∧
    (submit_rating [] 1 2 (some 7) 5).1.1 = 201 := by
  have h := submit_rating_validation [] 1 2 5
  refine ⟨?_, (h.2.2 7 (by norm_num) (by norm_num)).1⟩
  rw [h.2.1 11 (by norm_num)]

/-- Example movie used in the concrete database below. -/
def exampleMovie : Movie :=
  { id := 1, title := "Heat", overview := "", release_date := none,
    popularity := 5, vote_average := 8 }

/-- Example database: one movie linked to both `Action` and `Drama`,
rated by user 5. -/
def exampleDb : DB :=
  { movies := [exampleMovie]
    genres := [⟨1, "Action"⟩, ⟨2, "Drama"⟩]
    movie_genres := [⟨1, 1⟩, ⟨1, 2⟩]
    ratings := [⟨1, 5, 1, 8⟩] }

/-- Counterexample to C8 as stated: on `GET /api/my-movies` with genre
filter `Action`, the returned row for a movie linked to both `Action` and
`Drama` lists only `["Action"]`, although `Drama` is linked to it. -/
theorem myMovies_filtered_genres_counterexample :
    (get_myMovies_rows exampleDb 5 (some "Action") "date_new" 20 0).map (·.genres) =
      [["Action"]] ∧
    "Drama" ∈ movie_genre_names exampleDb 1 := by
  decide

/-- C8 (amended): `GET /api/movies` aggregates ALL genres linked to each
returned movie even under a genre filter, while `GET /api/my-movies` with an
active genre filter aggregates only the filtered genre name, because its
`WHERE g.name = %s` clause discards the other join rows before
`ARRAY_AGG`. -/
theorem genre_aggregation_spec (db : DB) (genre : Option String) (sort : String)
    (page limit uid offset : Nat)
    (hnodup : (db.genres.map (·.id)).Nodup) :
    (∀ row ∈ (get_movies_ai db page limit genre sort).movies,
      ∀ mg ∈ db.movie_genres, mg.movie_id = row.movie.id →
      ∀ g ∈ db.genres, g.id = mg.genre_id → g.name ∈ row.genres) ∧
    (genre_filter_active genre = true →
      ∀ row ∈ get_myMovies_rows db uid genre sort limit offset,
      ∀ name ∈ row.genres, name = genre.getD "") := by
  constructor
  · intro row hrow mg hmg hmgid g hg hgid
    obtain ⟨i, hi, hf⟩ := List.mem_filterMap.mp hrow
    obtain ⟨m, hm, hbind⟩ := Option.bind_eq_some.mp hf
    have hrow_eq : row = { movie := m, genres := movie_genre_names db m.id } := by
      by_cases hj : movie_in_join db none m = true
      · rw [if_pos hj] at hbind
        exact (Option.some.inj hbind).symm
      · rw [if_neg hj] at hbind
        cases hbind
    subst hrow_eq
    show g.name ∈ movie_genre_names db m.id
    apply List.mem_filterMap.mpr
    refine ⟨mg, List.mem_filter.mpr ⟨hmg, by simpa using hmgid⟩, ?_⟩
    have hsome : (db.genres.find? (fun x => x.id == mg.genre_id)).isSome := by
      rw [List.find?_isSome]
      exact ⟨g, hg, by simpa using hgid⟩
    obtain ⟨w, hw⟩ := Option.isSome_iff_exists.mp hsome
    have hwmem := List.mem_of_find?_eq_some hw
    have hwpred : w.id = mg.genre_id := by simpa using List.find?_some hw
    have hwg : w = g := List.inj_on_of_nodup_map hnodup hwmem hg (hwpred.trans hgid.symm)
    rw [hw, hwg]
    rfl
  · intro hactive row hrow name hname
    have hrow2 := List.mem_of_mem_drop (List.mem_of_mem_take hrow)
    obtain ⟨m, hm, hrow_eq⟩ := List.mem_map.mp hrow2
    rw [← hrow_eq] at hname
    have hname2 : name ∈ myMovies_join_names db m.id genre :=
      List.mem_dedup.mp hname
    obtain ⟨mg, hmg, hname3⟩ := List.mem_flatMap.mp hname2
    obtain ⟨g, hgmem, hgname⟩ := List.mem_map.mp hname3
    have hgpred := (List.mem_filter.mp hgmem).2
    simp only [hactive, Bool.not_true, Bool.false_or, Bool.and_eq_true, beq_iff_eq]
      at hgpred
    rw [← hgname]
    exact hgpred.2

/-- Witness for `genre_aggregation_spec` on the example database: the
filtered catalog row for the movie still carries the unfiltered genre
`Drama`. -/
theorem genre_aggregation_spec_witness :
    "Drama" ∈ (MovieRowOut.mk exampleMovie ["Action", "Drama"]).genres := by
  exact (genre_aggregation_spec exampleDb (some "Action") "popularity" 1 20 5 0
      (by decide)).1
    (MovieRowOut.mk exampleMovie ["Action", "Drama"]) (by decide)
    ⟨1, 2⟩ (by decide) rfl ⟨2, "Drama"⟩ (by decide) rfl

/-- Helper: every error produced by the auth decorator carries status 401. -/
theorem require_auth_error_status (store : SessionStore) (header : Option String)
    (e : AuthErr) (he : require_auth store header = .error e) : e.status = 401 := by
  cases header with
  | none =>
    simp only [require_auth, Except.error.injEq] at he
    rw [← he]
  | some tok =>
    simp only [require_auth] at he
    by_cases h : (tok == "") = true
    · rw [if_pos h] at he
      simp only [Except.error.injEq] at he
      rw [← he]
    · rw [if_neg h] at he
      cases hl : tokenLookup store (stripBearer tok) with
      | none =>
        rw [hl] at he
        simp only [Except.error.injEq] at he
        rw [← he]
      | some info =>
        rw [hl] at he
        cases he

/-- Counterexample to C9 as stated: an unauthenticated request to
`GET /api/home/recommendations` receives a 401 error response (and no
message), because the route is wrapped in `@require_auth`. -/
theorem recommendations_unauthenticated_counterexample :
    (get_home_recommendations exampleDb [] none).status = 401 ∧
    (get_home_recommendations exampleDb [] none).error =
      some "No authorization token provided" ∧
    (get_home_recommendations exampleDb [] none).message = none := by
  decide

/-- C9 (amended): an unauthenticated caller of the recommendations endpoint
gets a 401 auth error from the decorator (never the in-handler message,
which is dead code), while an authenticated caller always gets 200 carrying
either the recommended list or a message. -/
theorem recommendations_response_spec (db : DB) (store : SessionStore)
    (header : Option String) :
    (∀ e, require_auth store header = .error e →
      (get_home_recommendations db store header).status = 401 ∧
      (get_home_recommendations db store header).error = some e.msg ∧
      (get_home_recommendations db store header).recommended = none) ∧
    (∀ info, require_auth store header = .ok info → info.id ≠ 0 →
      (get_home_recommendations db store header).status = 200 ∧
      (get_home_recommendations db store header).error = none ∧
      ((get_home_recommendations db store header).recommended.isSome ∨
        (get_home_recommendations db store header).message.isSome)) := by
  constructor
  · intro e he
    have h401 := require_auth_error_status store header e he
    refine ⟨?_, ?_, ?_⟩ <;> simp [get_home_recommendations, he, h401]
  · intro info hok hid
    by_cases hr : (recommended_movies db info.id).isEmpty = true
    · refine ⟨?_, ?_, Or.inr ?_⟩ <;> simp [get_home_recommendations, hok, hid, hr]
    · refine ⟨?_, ?_, Or.inl ?_⟩ <;> simp [get_home_recommendations, hok, hid, hr]

/-- Witness for `recommendations_response_spec`: an authenticated caller on
the example database gets a 200 response. -/
theorem recommendations_response_spec_witness :
    (get_home_recommendations exampleDb [(("tok" : String), ⟨5, "user"⟩)]
      (some "tok")).status = 200 := by
  exact ((recommendations_response_spec exampleDb [(("tok" : String), ⟨5, "user"⟩)]
    (some "tok")).2 ⟨5, "user"⟩ rfl (by decide)).1

/-- C10: a movie with no `movie_genres` rows is dropped by the inner join of
the listing query — it appears on no page — while the unfiltered count query
counts every row of `movies`; the grouped join result is therefore strictly
smaller than the reported total. -/
theorem movies_join_vs_count (db : DB) (m : Movie) (genre : Option String)
    (hm : m ∈ db.movies)
    (hno : ∀ mg ∈ db.movie_genres, mg.movie_id ≠ m.id)
    (hg : genre_filter_active genre = false) :
    (∀ page limit sort,
      m.id ∉ (get_movies_ai db page limit genre sort).movies.map (·.movie.id)) ∧
    movies_total db genre = db.movies.length ∧
    (db.movies.filter (movie_in_join db genre)).length < db.movies.length := by
  have hjoin : ∀ m' : Movie, m'.id = m.id → movie_in_join db genre m' = false := by
    intro m' hid
    rw [movie_in_join, List.any_eq_false]
    intro mg hmg hcontra
    simp only [mg_row_matches, Bool.and_eq_true, beq_iff_eq] at hcontra
    exact hno mg hmg (hcontra.1.trans hid)
  refine ⟨?_, ?_, ?_⟩
  · intro page limit sort hmem
    obtain ⟨row, hrow, hid⟩ := List.mem_map.mp hmem
    obtain ⟨i, hi, hf⟩ := List.mem_filterMap.mp hrow
    obtain ⟨m1, hm1, hbind⟩ := Option.bind_eq_some.mp hf
    have hm1id : m1.id = i := by simpa using List.find?_some hm1
    have hrowm : row.movie = m1 := by
      by_cases hj : movie_in_join db none m1 = true
      · rw [if_pos hj] at hbind
        rw [← Option.some.inj hbind]
      · rw [if_neg hj] at hbind
        cases hbind
    have him : i = m.id := by
      rw [← hid, hrowm, hm1id]
    have hi2 : i ∈ ((sortMovies (order_clause_ai sort)
        (db.movies.filter (movie_in_join db genre))).map (·.id)) :=
      List.mem_of_mem_drop (List.mem_of_mem_take hi)
    obtain ⟨m2, hm2, hm2id⟩ := List.mem_map.mp hi2
    have hm2mem : m2 ∈ db.movies.filter (movie_in_join db genre) := by
      rw [sortMovies, List.mem_insertionSort] at hm2
      exact hm2
    have hm2join := (List.mem_filter.mp hm2mem).2
    have : movie_in_join db genre m2 = false := hjoin m2 (hm2id.trans him)
    rw [this] at hm2join
    cases hm2join
  · simp [movies_total, hg]
  · apply Nat.lt_of_le_of_ne (List.length_filter_le _ _)
    intro heq
    have hall := List.filter_length_eq_length.mp heq
    have := hall m hm
    rw [hjoin m rfl] at this
    cases this

/-- Witness for `movies_join_vs_count`: a database whose single extra movie
has no genre links. -/
theorem movies_join_vs_count_witness :
    movies_total
      { movies := [exampleMovie, { exampleMovie with id := 2, title := "Solo" }]
        genres := [⟨1, "Action"⟩]
        movie_genres := [⟨1, 1⟩]
        ratings := [] } none = 2 := by
  exact (movies_join_vs_count
    { movies := [exampleMovie, { exampleMovie with id := 2, title := "Solo" }]
      genres := [⟨1, "Action"⟩]
      movie_genres := [⟨1, 1⟩]
      ratings := [] }
    { exampleMovie with id := 2, title := "Solo" } none
    (by decide) (by decide) rfl).2.1
